import Mathlib

/-! Verification of the Etsy-editor backend (`app.py`): a Flask service that
stores submitted SVG designs under short random codes and renders them back
as HTML pages.  The Python source is shallowly embedded below: pure helpers
become Lean functions, the two request handlers become functions from an
explicit request/store to a response and an updated store, and Python-level
runtime exceptions (TypeError from `len`, AttributeError from `.strip`,
database integrity/interface errors from `session.commit`) are modelled with
`Except`.  Character classification (`isalnum`, whitespace) is modelled for
the ASCII range.
-/

set_option maxRecDepth 10000

/-- Python values that can appear in the parsed JSON request body.
`num` covers JSON integers; JSON `null` is `PyVal.none`. -/
inductive PyVal where
  | str (s : String)
  | num (n : Int)
  | bool (b : Bool)
  | list (xs : List PyVal)
  | none

/-- Python truthiness (`bool(v)`) of a request-body value. -/
def pyTruthy : PyVal → Bool
  | PyVal.str s => s.length != 0
  | PyVal.num n => n != 0
  | PyVal.bool b => b
  | PyVal.list xs => xs.length != 0
  | PyVal.none => false

/-- Python truthiness of a configuration string (`bool(s)`). -/
def strTruthy (s : String) : Bool := s.length != 0

/-- Python `a or b`: returns `a` when truthy, otherwise `b`. -/
def pyOr (a b : PyVal) : PyVal := if pyTruthy a then a else b

/-- Runtime failures the handlers can raise: `TypeError` from `len` on a
value without a length, `AttributeError` from `.strip()` on a non-string,
and the storage layer's unique-constraint / parameter-binding errors raised
by `session.commit()`. -/
inductive PyErr where
  | typeError
  | attributeError
  | integrityError
  | interfaceError
deriving DecidableEq

/-- Python `len(v)`: defined for strings and lists, `TypeError` otherwise. -/
def pyLen : PyVal → Except PyErr Nat
  | PyVal.str s => Except.ok s.length
  | PyVal.list xs => Except.ok xs.length
  | _ => Except.error PyErr.typeError

/-- Whitespace characters stripped by Python `str.strip()` (ASCII range). -/
def pyIsSpace (c : Char) : Bool :=
  c == ' ' || c == '\t' || c == '\n' || c == '\x0b' || c == '\x0c' || c == '\r'

/-- Python `s.strip()`: remove leading and trailing whitespace. -/
def pyStrip (s : String) : String :=
  String.mk (((s.data.dropWhile pyIsSpace).reverse.dropWhile pyIsSpace).reverse)

/-- Python `v.strip()` on a request value: succeeds only on strings, otherwise the
attribute lookup raises `AttributeError`. -/
def pyStripAttr : PyVal → Except PyErr String
  | PyVal.str s => Except.ok (pyStrip s)
  | _ => Except.error PyErr.attributeError

mutual

/-- Python `repr(v)`, as used by `str` on containers. -/
def pyRepr : PyVal → String
  | PyVal.str s => "\x27" ++ s ++ "\x27"
  | PyVal.num n => toString n
  | PyVal.bool b => if b then "True" else "False"
  | PyVal.list xs => "[" ++ String.intercalate ", " (pyReprList xs) ++ "]"
  | PyVal.none => "None"

/-- Python `repr` of each element of a list value. -/
def pyReprList : List PyVal → List String
  | [] => []
  | v :: vs => pyRepr v :: pyReprList vs

end

/-- Python `str(v)` for the modelled values. -/
def pyStr : PyVal → String
  | PyVal.str s => s
  | PyVal.num n => toString n
  | PyVal.bool b => if b then "True" else "False"
  | PyVal.list xs => "[" ++ String.intercalate ", " (pyReprList xs) ++ "]"
  | PyVal.none => "None"

/-! ## Base64 (`base64.b64encode`, `secrets.token_urlsafe`) -/

/-- The URL-safe base64 alphabet used by `secrets.token_urlsafe`. -/
def b64urlAlphabet : List Char :=
  "ABCDEFGHIJKLMNOPQRSTUVWXYZabcdefghijklmnopqrstuvwxyz0123456789-_".data

/-- Character for a 6-bit group in the URL-safe alphabet. -/
def b64urlChar (n : Nat) : Char := b64urlAlphabet.getD n 'A'

/-- The standard base64 alphabet used by `base64.b64encode`. -/
def b64stdAlphabet : List Char :=
  "ABCDEFGHIJKLMNOPQRSTUVWXYZabcdefghijklmnopqrstuvwxyz0123456789+/".data

/-- Character for a 6-bit group in the standard alphabet. -/
def b64stdChar (n : Nat) : Char := b64stdAlphabet.getD n 'A'

/-- Index of a character in the standard alphabet (inverse of `b64stdChar`). -/
def b64stdVal (c : Char) : Nat :=
  (b64stdAlphabet.indexOf c)

/-- Unpadded URL-safe base64 of a byte sequence: `base64.urlsafe_b64encode`
followed by stripping the `=` padding, exactly as `secrets.token_urlsafe`
produces its text. -/
def b64urlEncode : List Nat → List Char
  | [] => []
  | [b0] => [b64urlChar (b0 / 4), b64urlChar (b0 % 4 * 16)]
  | [b0, b1] =>
      [b64urlChar (b0 / 4), b64urlChar (b0 % 4 * 16 + b1 / 16),
       b64urlChar (b1 % 16 * 4)]
  | b0 :: b1 :: b2 :: rest =>
      b64urlChar (b0 / 4) :: b64urlChar (b0 % 4 * 16 + b1 / 16) ::
      b64urlChar (b1 % 16 * 4 + b2 / 64) :: b64urlChar (b2 % 64) ::
      b64urlEncode rest

/-- Standard padded base64 of a byte sequence (`base64.b64encode`). -/
def b64encode : List Nat → List Char
  | [] => []
  | [b0] => [b64stdChar (b0 / 4), b64stdChar (b0 % 4 * 16), '=', '=']
  | [b0, b1] =>
      [b64stdChar (b0 / 4), b64stdChar (b0 % 4 * 16 + b1 / 16),
       b64stdChar (b1 % 16 * 4), '=']
  | b0 :: b1 :: b2 :: rest =>
      b64stdChar (b0 / 4) :: b64stdChar (b0 % 4 * 16 + b1 / 16) ::
      b64stdChar (b1 % 16 * 4 + b2 / 64) :: b64stdChar (b2 % 64) ::
      b64encode rest

/-- Standard base64 decoding of a padded encoding, the inverse used to state
that the rendered data URI decodes back to the stored SVG bytes.  A final
`c1 c2 = =` group carries one byte, a final `c1 c2 c3 =` group carries two,
and any other 4-character group carries three. -/
def b64decode : List Char → List Nat
  | c1 :: c2 :: c3 :: c4 :: rest =>
      if c3 == '=' && c4 == '=' && rest.isEmpty then
        [b64stdVal c1 * 4 + b64stdVal c2 / 16]
      else if c4 == '=' && rest.isEmpty then
        [b64stdVal c1 * 4 + b64stdVal c2 / 16,
         b64stdVal c2 % 16 * 16 + b64stdVal c3 / 4]
      else
        (b64stdVal c1 * 4 + b64stdVal c2 / 16) ::
        (b64stdVal c2 % 16 * 16 + b64stdVal c3 / 4) ::
        (b64stdVal c3 % 4 * 64 + b64stdVal c4) ::
        b64decode rest
  | _ => []

/-! ## UTF-8 encoding (`str.encode`) -/

/-- UTF-8 bytes of a single code point. -/
def utf8EncodeChar (c : Nat) : List Nat :=
  if c < 128 then [c]
  else if c < 2048 then [192 + c / 64, 128 + c % 64]
  else if c < 65536 then [224 + c / 4096, 128 + c / 64 % 64, 128 + c % 64]
  else [240 + c / 262144, 128 + c / 4096 % 64, 128 + c / 64 % 64, 128 + c % 64]

/-- UTF-8 bytes of a string (`s.encode` in the viewer). -/
def utf8Encode (s : String) : List Nat :=
  (s.data.map (fun c => utf8EncodeChar c.toNat)).flatten

/-! ## Code generation (`generate_code`) -/

/-- The source's `generate_code`: `secrets.token_urlsafe(7)` (the
URL-safe base64 text of 7 random bytes), with every `-` and `_` removed and
the result truncated to 10 characters.  The 7 random bytes are the explicit
input. -/
def generate_code (bs : List Nat) : String :=
  String.mk (((b64urlEncode bs).filter
    (fun c => !(c == '-') && !(c == '_'))).take 10)

/-! ## Collision retry loop (`save_design`, lines 96-102) -/

/-- The collision loop body: with `n` iterations of `for _ in range(3)`
remaining, current candidate `code`, and `used` codes generated so far,
break as soon as the candidate is not taken, else regenerate.  `taken` is
the database membership test `session.query(Design).filter_by(code=code)
.first() is not None`; `gen k` is the result of the `k`-th call to
`generate_code`. -/
def collisionRetry (taken : String → Bool) (gen : Nat → String) :
    Nat → String → Nat → String × Nat
  | 0, code, used => (code, used)
  | Nat.succ n, code, used =>
      if taken code then collisionRetry taken gen n (gen used) (used + 1)
      else (code, used)

/-- Candidate-code selection of `save_design`: one initial `generate_code`
call, then the 3-iteration collision loop.  Returns the chosen code and the
total number of candidates generated. -/
def pickCode (taken : String → Bool) (gen : Nat → String) : String × Nat :=
  collisionRetry taken gen 3 (gen 0) 1

/-! ## Requests, responses, configuration, storage -/

/-- Response bodies: the JSON objects produced by `jsonify`, plain text, and
rendered HTML. -/
inductive RespBody where
  | jsonError (msg : String)
  | jsonCode (code : String)
  | text (msg : String)
  | html (doc : String)
deriving DecidableEq

/-- An HTTP response: status, body, and the headers the handlers set. -/
structure HttpResponse where
  status : Nat
  body : RespBody
  headers : List (String × String)
deriving DecidableEq

/-- Application configuration (`app.config`): allowed origin and the
optional admin credentials, empty string meaning unconfigured. -/
structure Config where
  allowedOrigin : String
  adminUser : String
  adminPass : String

/-- A persisted `Design` row (the claims never inspect `id`, and
`created_at` is carried as its formatted text). -/
structure DesignRec where
  code : String
  product_id : String
  svg : String
  state_json : Option String
  created_at : String
deriving DecidableEq

/-- A request to `POST/OPTIONS /api/designs`: the method, the `Origin`
header, and the three recognized JSON body fields (`Option.none` when the
key is missing or the body failed to parse). -/
structure SubmitRequest where
  method : String
  origin : Option String
  productId : Option PyVal
  svg : Option PyVal
  state : Option PyVal

/-- The source's `cors_ok`: decorate a response with the CORS headers when the origin is
the wildcard or exactly matches the configured origin (a truthy header being
required for the match). -/
def cors_ok (cfg : Config) (origin : Option String) (resp : HttpResponse) :
    HttpResponse :=
  if cfg.allowedOrigin == "*" ||
      ((match origin with | some o => strTruthy o | Option.none => false) &&
        origin == some cfg.allowedOrigin) then
    { resp with headers := resp.headers ++
        [("Access-Control-Allow-Origin",
          match origin with
          | some o => if strTruthy o then o else "*"
          | Option.none => "*"),
         ("Vary", "Origin"),
         ("Access-Control-Allow-Credentials", "true")] }
  else resp

/-- The source's `require_basic_auth`: true only when both admin credentials are
configured, credentials were presented, and both match exactly. -/
def require_basic_auth (cfg : Config) (auth : Option (String × String)) :
    Bool :=
  strTruthy cfg.adminUser && strTruthy cfg.adminPass &&
    (match auth with
     | some a => a.1 == cfg.adminUser && a.2 == cfg.adminPass
     | Option.none => false)

/-- The `state_json` column value: the Python expression
`(state if isinstance(state, str) else None) or
(None if state is None else str(state))`. -/
def stateJson : Option PyVal → Option String
  | Option.none => Option.none
  | some v =>
      match v with
      | PyVal.str s => if strTruthy s then some s else some (pyStr (PyVal.str s))
      | w => some (pyStr w)

/-! ## Submission handler (`save_design`) -/

/-- The database membership test used both by the collision loop and by the
unique-index constraint on `Design.code`. -/
def codeTaken (store : List DesignRec) (code : String) : Bool :=
  store.any (fun d => d.code == code)

/-- The source's `save_design`, the `OPTIONS/POST /api/designs` handler.  Inputs beyond
the request: the configuration, the stream `gen` of successive
`generate_code` results, the creation timestamp `now` (already formatted),
and the current table of designs.  The result is either a raised exception
(Flask turns it into a 500 server error and the transaction is rolled back)
or a response together with the updated table.  `session.commit()` is
modelled as enforcing the unique index on `code` (`integrityError`) and
rejecting a non-string value bound to the `svg` text column
(`interfaceError`). -/
def save_design (cfg : Config) (gen : Nat → String) (now : String)
    (req : SubmitRequest) (store : List DesignRec) :
    Except PyErr (HttpResponse × List DesignRec) :=
  if req.method == "OPTIONS" then
    Except.ok (cors_ok cfg req.origin
      { status := 204, body := RespBody.text "",
        headers := [("Access-Control-Allow-Methods", "POST, OPTIONS"),
                    ("Access-Control-Allow-Headers", "Content-Type, Authorization")] },
      store)
  else if cfg.allowedOrigin != "*" && req.origin != some cfg.allowedOrigin then
    Except.ok ({ status := 403, body := RespBody.jsonError "Origin not allowed",
                 headers := [] }, store)
  else
    match pyStripAttr (pyOr (req.productId.getD PyVal.none) (PyVal.str "")) with
    | Except.error e => Except.error e
    | Except.ok product_id =>
      let svg := pyOr (req.svg.getD PyVal.none) (PyVal.str "")
      if !(strTruthy product_id) || !(pyTruthy svg) then
        Except.ok (cors_ok cfg req.origin
          { status := 400, body := RespBody.jsonError "productId and svg are required",
            headers := [] }, store)
      else
        match pyLen svg with
        | Except.error e => Except.error e
        | Except.ok n =>
          if 1500000 < n then
            Except.ok (cors_ok cfg req.origin
              { status := 413, body := RespBody.jsonError "SVG too large",
                headers := [] }, store)
          else
            let code := (pickCode (codeTaken store) gen).1
            match svg with
            | PyVal.str svgText =>
              if codeTaken store code then Except.error PyErr.integrityError
              else
                Except.ok (cors_ok cfg req.origin
                  { status := 200, body := RespBody.jsonCode code, headers := [] },
                  store ++ [{ code := code, product_id := product_id,
                              svg := svgText,
                              state_json := stateJson req.state,
                              created_at := now }])
            | _ => Except.error PyErr.interfaceError

/-! ## Retrieval renderer (`view_design`) -/

/-- The viewer's `safe_name`: each character of the product reference
(or of the literal `design` when the reference is empty) that is not
alphanumeric is replaced by `-`, then leading and trailing `-` are stripped
and the result is lowercased. -/
def safe_name (product_id : String) : String :=
  String.mk (((((if strTruthy product_id then product_id else "design").data.map
    (fun ch => if ch.isAlphanum then ch else '-')).dropWhile
      (fun c => c == '-')).reverse.dropWhile (fun c => c == '-')).reverse.map
        Char.toLower)

/-- The suggested download filename in the rendered page, the
`download='{safe_name}-{code}.svg'` attribute value. -/
def downloadFilename (product_id code : String) : String :=
  safe_name product_id ++ "-" ++ code ++ ".svg"

/-- The data URI for the stored SVG: the fixed prefix plus the standard
base64 text of the document's UTF-8 bytes. -/
def svgDataUrl (svgBytes : List Nat) : String :=
  "data:image/svg+xml;base64," ++ String.mk (b64encode svgBytes)

/-- Template text of the viewer page before the `<title>` code. -/
def tplA : String :=
  "\n<!doctype html>\n<html>\n  <head>\n    <meta charset=\x27utf-8\x27>\n    <meta name=\x27viewport\x27 content=\x27width=device-width, initial-scale=1\x27>\n    <title>Design "

/-- Template text between the title code and the heading code. -/
def tplB : String :=
  "</title>\n    <style>\n      body \x7b font-family: Arial, Helvetica, sans-serif; margin: 16px; \x7d\n      .wrap \x7b max-width: 980px; margin: 0 auto; \x7d\n      .meta \x7b color:#666; font-size: 13px; margin-bottom: 8px; \x7d\n      .preview \x7b border:1px solid #ddd; border-radius:8px; overflow:auto; background:#fafafa; padding:8px; \x7d\n      .actions \x7b margin-top:12px; display:flex; gap:8px; \x7d\n      .btn \x7b border:1px solid #ddd; background:#fff; padding:8px 10px; border-radius:6px; text-decoration:none; color:#111; \x7d\n    </style>\n  </head>\n  <body>\n    <div class=\x27wrap\x27>\n      <h2>Design code: "

/-- Template text between the heading code and the product reference. -/
def tplC : String := "</h2>\n      <div class=\x27meta\x27>Product: "

/-- Template text between the product reference and the timestamp. -/
def tplD : String := " · Created: "

/-- Template text between the timestamp and the preview data URI. -/
def tplE : String :=
  " UTC</div>\n      <div class=\x27preview\x27>\n        <img src=\x27"

/-- Template text between the preview data URI and the download href. -/
def tplF : String :=
  "\x27 alt=\x27SVG preview\x27 style=\x27max-width:100%; height:auto; display:block;\x27>\n      </div>\n      <div class=\x27actions\x27>\n        <a class=\x27btn\x27 href=\x27"

/-- Template text between the download href and the download filename. -/
def tplG : String := "\x27 download=\x27"

/-- Template text after the download filename. -/
def tplH : String :=
  "\x27>Download SVG</a>\n      </div>\n    </div>\n  </body>\n  </html>\n            "

/-- The rendered viewer page: the f-string of `view_design` with the code,
the product reference (verbatim), the formatted creation timestamp, the SVG
data URI (twice), and the download filename interpolated. -/
def renderHtml (code product_id created_at : String) (svgBytes : List Nat) :
    String :=
  tplA ++ code ++ tplB ++ code ++ tplC ++ product_id ++ tplD ++ created_at ++
  tplE ++ svgDataUrl svgBytes ++ tplF ++ svgDataUrl svgBytes ++ tplG ++
  downloadFilename product_id code ++ tplH

/-- Lookup-and-render stage of `view_design`, after the auth gate. -/
def view_lookup (store : List DesignRec) (code : String) : HttpResponse :=
  match store.find? (fun d => d.code == code) with
  | Option.none =>
      { status := 404, body := RespBody.text "Code not found", headers := [] }
  | some d =>
      { status := 200,
        body := RespBody.html
          (renderHtml code d.product_id d.created_at (utf8Encode d.svg)),
        headers := [] }

/-- The source's `view_design`, the `GET /d/<code>` handler: the basic-auth gate runs
only when both admin credentials are configured, then the design is looked
up and rendered. -/
def view_design (cfg : Config) (auth : Option (String × String))
    (store : List DesignRec) (code : String) : HttpResponse :=
  if strTruthy cfg.adminUser && strTruthy cfg.adminPass then
    if !(require_basic_auth cfg auth) then
      { status := 401, body := RespBody.text "Authentication required",
        headers := [("WWW-Authenticate", "Basic realm=\x22Designs\x22")] }
    else view_lookup store code
  else view_lookup store code

/-! ## Auxiliary definitions for the statements -/

/-- Whether `pat` occurs as a contiguous run inside `l`. -/
def occursIn (pat : List Char) : List Char → Bool
  | [] => pat.isEmpty
  | c :: rest => pat.isPrefixOf (c :: rest) || occursIn pat rest

/-- A wildcard-origin configuration with authentication disabled. -/
def cfgW : Config := { allowedOrigin := "*", adminUser := "", adminPass := "" }

/-- A constant `generate_code` stream used for concrete inputs. -/
def genK : Nat → String := fun _ => "K"

/-- The CORS headers `cors_ok` adds for a wildcard origin and no `Origin`
header. -/
def corsHdrs : List (String × String) :=
  [("Access-Control-Allow-Origin", "*"), ("Vary", "Origin"),
   ("Access-Control-Allow-Credentials", "true")]

/-- An SVG document consisting of `n` copies of the letter `a`. -/
def bigSvg (n : Nat) : String := String.mk (List.replicate n 'a')

/-- A well-formed submission whose SVG has `n` characters. -/
def sizeReq (n : Nat) : SubmitRequest :=
  { method := "POST", origin := Option.none,
    productId := some (PyVal.str "p"),
    svg := some (PyVal.str (bigSvg n)), state := Option.none }

/-! ## Theorems -/

/-- Unfolding helper: the length of a packed character list. -/
theorem mk_length (l : List Char) : (String.mk l).length = l.length := rfl

/-- Claim C2, counterexample: when every candidate collides, the handler's
code-selection loop generates 4 candidate codes (the initial one plus one
regeneration after each of the 3 failed checks), refuting the claimed bound
of at most 3 generated candidates. -/
theorem pickCode_counterexample :
    ¬ ((pickCode (fun _ => true) (fun _ => "K")).2 ≤ 3) := by decide

/-- Claim C2 as amended: the handler generates one initial candidate and
performs up to 3 collision checks, regenerating after each failed check, so
at most 4 candidates are generated in total; the persisted candidate either
passed its collision check, or all 3 checks failed, exactly 4 candidates
were generated, and the final (fourth) candidate is persisted without ever
being checked. -/
theorem pickCode_bounded (taken : String → Bool) (gen : Nat → String) :
    (pickCode taken gen).2 ≤ 4 ∧
      (taken (pickCode taken gen).1 = false ∨
        ((pickCode taken gen).2 = 4 ∧ (pickCode taken gen).1 = gen 3)) := by
  rcases h0 : taken (gen 0) <;> rcases h1 : taken (gen 1) <;>
    rcases h2 : taken (gen 2) <;>
      simp [pickCode, collisionRetry, h0, h1, h2]

/-- Parametric success case of the size check: any submission of `p` with
an SVG of positive length at most the cap is persisted. -/
theorem size_check_ok (s : String) (h0 : s.length ≠ 0)
    (hle : s.length ≤ 1500000) :
    save_design cfgW genK "TS"
      { method := "POST", origin := Option.none,
        productId := some (PyVal.str "p"),
        svg := some (PyVal.str s), state := Option.none } [] =
      Except.ok ({ status := 200, body := RespBody.jsonCode "K",
                   headers := corsHdrs },
        [{ code := "K", product_id := "p", svg := s,
           state_json := Option.none, created_at := "TS" }]) := by
  have hpl : ("p" : String).length = 1 := rfl
  have hps : pyStripAttr (PyVal.str "p") = Except.ok "p" := rfl
  have hnotlt : ¬ (1500000 < s.length) := by omega
  simp [save_design, cfgW, genK, corsHdrs, pyOr, pyTruthy, strTruthy, hpl,
    hps, pyLen, hnotlt, h0, cors_ok, pickCode, collisionRetry, codeTaken,
    stateJson]

/-- Parametric failure case of the size check: any submission of `p` with
an SVG longer than the cap is rejected with 413. -/
theorem size_check_reject (s : String) (hgt : 1500000 < s.length) :
    save_design cfgW genK "TS"
      { method := "POST", origin := Option.none,
        productId := some (PyVal.str "p"),
        svg := some (PyVal.str s), state := Option.none } [] =
      Except.ok ({ status := 413, body := RespBody.jsonError "SVG too large",
                   headers := corsHdrs }, []) := by
  have hpl : ("p" : String).length = 1 := rfl
  have hps : pyStripAttr (PyVal.str "p") = Except.ok "p" := rfl
  have h0 : s.length ≠ 0 := by omega
  simp [save_design, cfgW, genK, corsHdrs, pyOr, pyTruthy, strTruthy, hpl,
    hps, pyLen, hgt, h0, cors_ok]

/-- Claim C8: a submission whose SVG has exactly 1,500,000 characters
passes the size check and succeeds (one record stored, 200 with the code),
while one with exactly 1,500,001 characters is rejected with 413 and the
body `{"error": "SVG too large"}`. -/
theorem svg_size_boundary :
    save_design cfgW genK "TS" (sizeReq 1500000) [] =
      Except.ok ({ status := 200, body := RespBody.jsonCode "K",
                   headers := corsHdrs },
        [{ code := "K", product_id := "p", svg := bigSvg 1500000,
           state_json := Option.none, created_at := "TS" }]) ∧
    save_design cfgW genK "TS" (sizeReq 1500001) [] =
      Except.ok ({ status := 413, body := RespBody.jsonError "SVG too large",
                   headers := corsHdrs }, []) := by
  have hlen : ∀ n : Nat, (bigSvg n).length = n := by
    intro n; simp [bigSvg, mk_length]
  exact ⟨size_check_ok (bigSvg 1500000) (by rw [hlen]; omega)
      (by rw [hlen]),
    size_check_reject (bigSvg 1500001) (by rw [hlen]; omega)⟩

/-- Decoration by `cors_ok` only touches headers: the status is preserved. -/
theorem cors_ok_status (cfg : Config) (o : Option String) (r : HttpResponse) :
    (cors_ok cfg o r).status = r.status := by
  unfold cors_ok; split <;> rfl

/-- Decoration by `cors_ok` only touches headers: the body is preserved. -/
theorem cors_ok_body (cfg : Config) (o : Option String) (r : HttpResponse) :
    (cors_ok cfg o r).body = r.body := by
  unfold cors_ok; split <;> rfl

/-- Claim C9: any submission answered with a validation failure (403, 400
or 413) leaves the design table unchanged, and any submission answered 200
appends exactly one new record. -/
theorem design_store_frame (cfg : Config) (gen : Nat → String) (now : String)
    (req : SubmitRequest) (store : List DesignRec) (resp : HttpResponse)
    (store' : List DesignRec)
    (h : save_design cfg gen now req store = Except.ok (resp, store')) :
    ((resp.status = 403 ∨ resp.status = 400 ∨ resp.status = 413) →
        store' = store) ∧
      (resp.status = 200 → ∃ d, store' = store ++ [d]) := by
  simp only [save_design] at h
  repeat' split at h
  all_goals simp at h
  all_goals obtain ⟨h1, h2⟩ := h
  all_goals subst h1
  all_goals subst h2
  all_goals refine ⟨fun hc => ?_, fun hc => ?_⟩
  all_goals try rfl
  all_goals try exact ⟨_, rfl⟩
  all_goals try simp only [cors_ok_status] at hc
  all_goals simp at hc

/-- A small well-formed submission used as a concrete witness input. -/
def reqSmall : SubmitRequest :=
  { method := "POST", origin := Option.none,
    productId := some (PyVal.str "p"),
    svg := some (PyVal.str "a"), state := Option.none }

/-- Witness for claim C9: a concrete successful submission appends exactly
one record to the empty table. -/
theorem design_store_frame_witness :
    ∃ d, ([{ code := "K", product_id := "p", svg := "a",
             state_json := Option.none, created_at := "TS" }] :
        List DesignRec) = [] ++ [d] :=
  (design_store_frame cfgW genK "TS" reqSmall []
    { status := 200, body := RespBody.jsonCode "K", headers := corsHdrs }
    [{ code := "K", product_id := "p", svg := "a",
       state_json := Option.none, created_at := "TS" }] rfl).2 rfl

/-- Python string truthiness coincides with being nonempty. -/
theorem strTruthy_iff (s : String) : strTruthy s = true ↔ s ≠ "" := by
  unfold strTruthy
  rw [bne_iff_ne]
  constructor
  · intro h he; subst he; exact h rfl
  · intro h hl
    apply h
    cases s with
    | mk l =>
        cases l with
        | nil => rfl
        | cons c cs => simp [String.length, List.length] at hl

/-- The lookup stage only answers 404 or 200. -/
theorem view_lookup_status (store : List DesignRec) (code : String) :
    (view_lookup store code).status = 404 ∨
      (view_lookup store code).status = 200 := by
  unfold view_lookup; split <;> simp

/-- Claim C5: when both administrator credentials are configured, a
`GET /d/{code}` request whose basic credentials are absent or differ from
the configured pair is answered 401 with the `WWW-Authenticate: Basic`
challenge and the generic body, while a request presenting exactly the
configured pair is never answered 401; when either credential is
unconfigured, no request to this endpoint is answered 401. -/
theorem auth_gate (cfg : Config) (auth : Option (String × String))
    (store : List DesignRec) (code : String) :
    (cfg.adminUser ≠ "" → cfg.adminPass ≠ "" →
      ((auth ≠ some (cfg.adminUser, cfg.adminPass) →
          view_design cfg auth store code =
            { status := 401, body := RespBody.text "Authentication required",
              headers := [("WWW-Authenticate", "Basic realm=\x22Designs\x22")] }) ∧
        (auth = some (cfg.adminUser, cfg.adminPass) →
          (view_design cfg auth store code).status ≠ 401))) ∧
    ((cfg.adminUser = "" ∨ cfg.adminPass = "") →
      (view_design cfg auth store code).status ≠ 401) := by
  have hlk := view_lookup_status store code
  constructor
  · intro hu hp
    have hu' : strTruthy cfg.adminUser = true := (strTruthy_iff _).mpr hu
    have hp' : strTruthy cfg.adminPass = true := (strTruthy_iff _).mpr hp
    constructor
    · intro hne
      have hauth : require_basic_auth cfg auth = false := by
        unfold require_basic_auth
        rw [hu', hp']
        cases auth with
        | none => rfl
        | some a =>
            obtain ⟨u, p⟩ := a
            simp only [Bool.true_and]
            by_cases h1 : u = cfg.adminUser
            · by_cases h2 : p = cfg.adminPass
              · exact absurd (by rw [h1, h2]) hne
              · have hb : (p == cfg.adminPass) = false :=
                  beq_false_of_ne h2
                simp [hb]
            · have hb : (u == cfg.adminUser) = false :=
                beq_false_of_ne h1
              simp [hb]
      unfold view_design
      rw [hu', hp', hauth]
      rfl
    · intro heq
      subst heq
      have hauth : require_basic_auth cfg
          (some (cfg.adminUser, cfg.adminPass)) = true := by
        unfold require_basic_auth
        rw [hu', hp']
        simp
      unfold view_design
      rw [hu', hp', hauth]
      simp only [Bool.and_self, Bool.not_true, Bool.false_eq_true, if_false,
        if_true]
      rcases hlk with hlk | hlk <;> omega
  · intro hor
    have hoff : (strTruthy cfg.adminUser && strTruthy cfg.adminPass) = false := by
      cases hor with
      | inl h => rw [h]; rfl
      | inr h =>
          rw [h]
          simp [strTruthy]
    unfold view_design
    rw [hoff]
    simp only [Bool.false_eq_true, if_false]
    rcases hlk with hlk | hlk <;> omega

/-- Witness for claim C5: with configured credentials `u`/`p`, a
credential-less request is answered the 401 challenge, and with no
credentials configured the same request is not answered 401. -/
theorem auth_gate_witness :
    view_design { allowedOrigin := "*", adminUser := "u", adminPass := "p" }
        Option.none [] "x" =
      { status := 401, body := RespBody.text "Authentication required",
        headers := [("WWW-Authenticate", "Basic realm=\x22Designs\x22")] } ∧
    (view_design cfgW Option.none [] "x").status ≠ 401 :=
  ⟨((auth_gate { allowedOrigin := "*", adminUser := "u", adminPass := "p" }
        Option.none [] "x").1 (by decide) (by decide)).1 (by decide),
    (auth_gate cfgW Option.none [] "x").2 (Or.inl rfl)⟩

/-- Claim C6: with a specific (non-wildcard) allowed origin configured,
every `POST /api/designs` request whose `Origin` header is absent or not
exactly the configured value is answered 403 with the body
`{"error": "Origin not allowed"}` and the table untouched, for every
request body and table (no body validation or storage access happens);
a request whose `Origin` matches exactly is never answered 403. -/
theorem origin_gate (cfg : Config) (gen : Nat → String) (now : String)
    (req : SubmitRequest) (store : List DesignRec)
    (hm : req.method = "POST") (hw : cfg.allowedOrigin ≠ "*") :
    (req.origin ≠ some cfg.allowedOrigin →
        save_design cfg gen now req store =
          Except.ok ({ status := 403,
                       body := RespBody.jsonError "Origin not allowed",
                       headers := [] }, store)) ∧
      (req.origin = some cfg.allowedOrigin →
        ∀ resp store',
          save_design cfg gen now req store = Except.ok (resp, store') →
            resp.status ≠ 403) := by
  have hopt : (req.method == "OPTIONS") = false := by
    rw [hm]; rfl
  constructor
  · intro hne
    unfold save_design
    rw [hopt]
    have hc : (cfg.allowedOrigin != "*" &&
        req.origin != some cfg.allowedOrigin) = true := by
      rw [Bool.and_eq_true, bne_iff_ne, bne_iff_ne]
      exact ⟨hw, hne⟩
    rw [hc]
    rfl
  · intro heq resp store' h
    unfold save_design at h
    rw [hopt] at h
    have hc : (cfg.allowedOrigin != "*" &&
        req.origin != some cfg.allowedOrigin) = false := by
      rw [heq]
      simp
    rw [hc] at h
    simp only [Bool.false_eq_true, if_false] at h
    repeat' split at h
    all_goals simp at h
    all_goals obtain ⟨h1, h2⟩ := h
    all_goals subst h1
    all_goals simp [cors_ok_status]

/-- A configuration restricted to one exact origin, no credentials. -/
def cfgE : Config :=
  { allowedOrigin := "https://example.com", adminUser := "", adminPass := "" }

/-- A submission from a non-matching origin. -/
def reqEvil : SubmitRequest :=
  { method := "POST", origin := some "https://evil.com",
    productId := some (PyVal.str "p"),
    svg := some (PyVal.str "a"), state := Option.none }

/-- A submission from the configured origin. -/
def reqGood : SubmitRequest :=
  { method := "POST", origin := some "https://example.com",
    productId := some (PyVal.str "p"),
    svg := some (PyVal.str "a"), state := Option.none }

/-- The 200 response for `reqGood` under `cfgE`. -/
def respGood : HttpResponse :=
  { status := 200, body := RespBody.jsonCode "K",
    headers := [("Access-Control-Allow-Origin", "https://example.com"),
                ("Vary", "Origin"),
                ("Access-Control-Allow-Credentials", "true")] }

/-- Witness for claim C6: a mismatched origin is answered the 403 error
with the table unchanged, and the matching origin's 200 response is not a
403. -/
theorem origin_gate_witness :
    save_design cfgE genK "TS" reqEvil [] =
      Except.ok ({ status := 403,
                   body := RespBody.jsonError "Origin not allowed",
                   headers := [] }, []) ∧
    respGood.status ≠ 403 :=
  ⟨(origin_gate cfgE genK "TS" reqEvil [] rfl (by decide)).1 (by decide),
    (origin_gate cfgE genK "TS" reqGood [] rfl (by decide)).2 rfl respGood
      [{ code := "K", product_id := "p", svg := "a",
         state_json := Option.none, created_at := "TS" }] rfl⟩

/-- The size check applied to a list-valued `svg`: `len` succeeds on a
list, so an oversized list is rejected 413 like an oversized string. -/
theorem size_check_reject_list (xs : List PyVal)
    (hgt : 1500000 < xs.length) :
    save_design cfgW genK "TS"
      { method := "POST", origin := Option.none,
        productId := some (PyVal.str "p"),
        svg := some (PyVal.list xs), state := Option.none } [] =
      Except.ok ({ status := 413, body := RespBody.jsonError "SVG too large",
                   headers := corsHdrs }, []) := by
  have hpl : ("p" : String).length = 1 := rfl
  have hps : pyStripAttr (PyVal.str "p") = Except.ok "p" := rfl
  have h0 : xs.length ≠ 0 := by omega
  simp [save_design, cfgW, genK, corsHdrs, pyOr, pyTruthy, strTruthy, hpl,
    hps, pyLen, hgt, h0, cors_ok]

/-- Claim C10, counterexample: an `svg` value that is truthy and not a
string can perfectly well pass through `len` — a list of 1,500,001 elements
is answered with the 413 validation response, not with an unhandled type
error. -/
theorem svg_nonstring_counterexample :
    save_design cfgW genK "TS"
      { method := "POST", origin := Option.none,
        productId := some (PyVal.str "p"),
        svg := some (PyVal.list (List.replicate 1500001 (PyVal.str "x"))),
        state := Option.none } [] =
      Except.ok ({ status := 413, body := RespBody.jsonError "SVG too large",
                   headers := corsHdrs }, []) :=
  size_check_reject_list _ (by rw [List.length_replicate]; omega)

/-- Claim C10 as amended: if the truthy non-string `svg` value has no
length (a number, or the boolean `True`), the size check's `len` call
raises `TypeError`, which propagates as an unhandled server error and never
reaches the storage step. -/
theorem svg_without_len_type_error (gen : Nat → String) (now : String)
    (store : List DesignRec) (n : Int) (hn : n ≠ 0) :
    save_design cfgW gen now
      { method := "POST", origin := Option.none,
        productId := some (PyVal.str "p"),
        svg := some (PyVal.num n), state := Option.none } store =
      Except.error PyErr.typeError ∧
    save_design cfgW gen now
      { method := "POST", origin := Option.none,
        productId := some (PyVal.str "p"),
        svg := some (PyVal.bool true), state := Option.none } store =
      Except.error PyErr.typeError := by
  have hpl : ("p" : String).length = 1 := rfl
  have hps : pyStripAttr (PyVal.str "p") = Except.ok "p" := rfl
  have hnb : (n != 0) = true := bne_iff_ne.mpr hn
  constructor <;>
    simp [save_design, cfgW, pyOr, pyTruthy, strTruthy, hpl, hps, hnb, pyLen]

/-- Witness for the amended claim C10 at the integer `1`. -/
theorem svg_without_len_type_error_witness :
    ((1 : Int) ≠ 0) ∧
      save_design cfgW genK "TS"
        { method := "POST", origin := Option.none,
          productId := some (PyVal.str "p"),
          svg := some (PyVal.num 1), state := Option.none } [] =
        Except.error PyErr.typeError :=
  ⟨by decide, (svg_without_len_type_error genK "TS" [] 1 (by decide)).1⟩

/-- A URL-safe base64 character that is neither `-` nor `_` is
alphanumeric. -/
theorem b64urlChar_alnum :
    ∀ s : Nat, s < 64 →
      (!(b64urlChar s == '-') && !(b64urlChar s == '_')) = true →
        (b64urlChar s).isAlphanum = true := by decide

/-- The final 6-bit group of `token_urlsafe(7)` is `m * 16` with `m < 4`,
and such a character always survives the `-`/`_` removal. -/
theorem b64urlChar_last_kept :
    ∀ m : Nat, m < 4 →
      (!(b64urlChar (m * 16) == '-') && !(b64urlChar (m * 16) == '_')) =
        true := by decide

/-- Claim C1: for every outcome of the random source (any 7 bytes),
`generate_code` returns a string of length between 1 and 10 whose
characters are all alphanumeric (hence URL-safe); in particular it is
never empty. -/
theorem generate_code_bounds (bs : List Nat) (hlen : bs.length = 7)
    (hbytes : ∀ b ∈ bs, b < 256) :
    1 ≤ (generate_code bs).length ∧ (generate_code bs).length ≤ 10 ∧
      ∀ c ∈ (generate_code bs).data, c.isAlphanum = true := by
  rcases bs with _ | ⟨b0, bs⟩; · simp at hlen
  rcases bs with _ | ⟨b1, bs⟩; · simp at hlen
  rcases bs with _ | ⟨b2, bs⟩; · simp at hlen
  rcases bs with _ | ⟨b3, bs⟩; · simp at hlen
  rcases bs with _ | ⟨b4, bs⟩; · simp at hlen
  rcases bs with _ | ⟨b5, bs⟩; · simp at hlen
  rcases bs with _ | ⟨b6, bs⟩; · simp at hlen
  rcases bs with _ | ⟨b7, bs⟩
  case cons.cons.cons.cons.cons.cons.cons.cons =>
    exfalso; simp [List.length] at hlen
  have h6 : b6 < 256 := hbytes b6 (by simp)
  have hl : b64urlEncode [b0, b1, b2, b3, b4, b5, b6] =
      [b64urlChar (b0 / 4), b64urlChar (b0 % 4 * 16 + b1 / 16),
       b64urlChar (b1 % 16 * 4 + b2 / 64), b64urlChar (b2 % 64),
       b64urlChar (b3 / 4), b64urlChar (b3 % 4 * 16 + b4 / 16),
       b64urlChar (b4 % 16 * 4 + b5 / 64), b64urlChar (b5 % 64),
       b64urlChar (b6 / 4), b64urlChar (b6 % 4 * 16)] := rfl
  have hkept := b64urlChar_last_kept (b6 % 4) (by omega)
  have hmem : b64urlChar (b6 % 4 * 16) ∈
      (b64urlEncode [b0, b1, b2, b3, b4, b5, b6]).filter
        (fun c => !(c == '-') && !(c == '_')) :=
    List.mem_filter.mpr ⟨by rw [hl]; simp, hkept⟩
  have hpos : 0 <
      ((b64urlEncode [b0, b1, b2, b3, b4, b5, b6]).filter
        (fun c => !(c == '-') && !(c == '_'))).length :=
    List.length_pos.mpr (List.ne_nil_of_mem hmem)
  have hflen :
      ((b64urlEncode [b0, b1, b2, b3, b4, b5, b6]).filter
        (fun c => !(c == '-') && !(c == '_'))).length ≤ 10 := by
    calc ((b64urlEncode [b0, b1, b2, b3, b4, b5, b6]).filter
            (fun c => !(c == '-') && !(c == '_'))).length
        ≤ (b64urlEncode [b0, b1, b2, b3, b4, b5, b6]).length :=
          List.length_filter_le _ _
      _ = 10 := by rw [hl]; rfl
  refine ⟨?_, ?_, ?_⟩
  · show 1 ≤ (String.mk _).length
    rw [mk_length, List.length_take]
    omega
  · show (String.mk _).length ≤ 10
    rw [mk_length, List.length_take]
    omega
  · intro c hc
    have hc' : c ∈ (b64urlEncode [b0, b1, b2, b3, b4, b5, b6]).filter
        (fun c => !(c == '-') && !(c == '_')) :=
      List.mem_of_mem_take hc
    obtain ⟨hmemL, hp⟩ := List.mem_filter.mp hc'
    rw [hl] at hmemL
    have h0 : b0 < 256 := hbytes b0 (by simp)
    have h1 : b1 < 256 := hbytes b1 (by simp)
    have h2 : b2 < 256 := hbytes b2 (by simp)
    have h3 : b3 < 256 := hbytes b3 (by simp)
    have h4 : b4 < 256 := hbytes b4 (by simp)
    have h5 : b5 < 256 := hbytes b5 (by simp)
    simp only [List.mem_cons, List.not_mem_nil, or_false] at hmemL
    rcases hmemL with rfl | rfl | rfl | rfl | rfl | rfl | rfl | rfl |
        rfl | rfl <;>
      exact b64urlChar_alnum _ (by omega) hp

/-- Witness for claim C1 at the all-zero byte string. -/
theorem generate_code_bounds_witness :
    ([0, 0, 0, 0, 0, 0, 0] : List Nat).length = 7 ∧
      (1 ≤ (generate_code [0, 0, 0, 0, 0, 0, 0]).length ∧
        (generate_code [0, 0, 0, 0, 0, 0, 0]).length ≤ 10 ∧
        ∀ c ∈ (generate_code [0, 0, 0, 0, 0, 0, 0]).data,
          c.isAlphanum = true) :=
  ⟨rfl, generate_code_bounds [0, 0, 0, 0, 0, 0, 0] rfl (by decide)⟩

/-- Modelled from the claim's wording: one step of collapsing runs of
non-alphanumeric characters to a single separator (the boolean records
whether the previous character was already a separator). -/
def collapseStep (acc : List Char × Bool) (c : Char) : List Char × Bool :=
  if c.isAlphanum then (acc.1 ++ [c], false)
  else if acc.2 then acc
  else (acc.1 ++ ['-'], true)

/-- Modelled from the claim's wording: collapse each run of
non-alphanumeric characters to a single separator. -/
def specCollapse (l : List Char) : List Char :=
  (l.foldl collapseStep ([], false)).1

/-- Modelled from the claim's wording: trim leading and trailing
separators. -/
def specTrim (l : List Char) : List Char :=
  ((l.dropWhile (fun c => c == '-')).reverse.dropWhile
    (fun c => c == '-')).reverse

/-- Modelled from the claim's wording: the download filename obtained by
lowercasing the product reference, collapsing each non-alphanumeric run to
one separator, trimming separators at both ends, substituting the default
name when the result is empty, then suffixing the code and `.svg`. -/
def specFilename (product_id code : String) : String :=
  String.mk (match specTrim (specCollapse (product_id.data.map Char.toLower))
    with
    | [] => "design".data
    | base => base) ++ "-" ++ code ++ ".svg"

/-- Removal of trailing separators by direct recursion, used to restate the
filename derivation in the amended claim. -/
def dropTrailSep : List Char → List Char
  | [] => []
  | c :: rest =>
      match dropTrailSep rest with
      | [] => if c == '-' then [] else [c]
      | r => c :: r

/-- The amended claim's derivation: the default name substitutes for an
empty product reference before any transformation; each non-alphanumeric
character is replaced by one separator (runs are kept), separators are
trimmed from both ends, the result is lowercased, and `-{code}.svg` is
appended. -/
def specFilenameAmended (product_id code : String) : String :=
  String.mk ((dropTrailSep
    (((if product_id = "" then "design" else product_id).data.map
      (fun c => if c.isAlphanum then c else '-')).dropWhile
        (fun c => c == '-'))).map Char.toLower) ++
  "-" ++ code ++ ".svg"

/-- Trailing-separator removal via double reversal agrees with the direct
recursion. -/
theorem dropTrail_eq (l : List Char) :
    (l.reverse.dropWhile (fun c => c == '-')).reverse = dropTrailSep l := by
  induction l with
  | nil => rfl
  | cons c rest ih =>
      rw [List.reverse_cons, List.dropWhile_append]
      rcases hr : dropTrailSep rest with _ | ⟨r0, rs⟩
      · have h0 : rest.reverse.dropWhile (fun c => c == '-') = [] := by
          rw [hr] at ih
          rw [← List.reverse_reverse (List.dropWhile _ rest.reverse), ih]
          rfl
        rw [h0]
        simp only [List.isEmpty_nil, if_true, dropTrailSep, hr]
        by_cases hc : (c == '-') = true
        · simp [List.dropWhile, hc]
        · simp only [List.dropWhile]
          rw [Bool.not_eq_true] at hc
          rw [hc]
          rfl
      · have h0 : (rest.reverse.dropWhile (fun c => c == '-')).isEmpty =
            false := by
          rw [hr] at ih
          rcases he : rest.reverse.dropWhile (fun c => c == '-') with _ | _
          · rw [he] at ih; simp at ih
          · rfl
        rw [if_neg (by rw [h0]; exact Bool.false_ne_true)]
        rw [List.reverse_append, dropTrailSep, hr]
        simp only [List.reverse_cons, List.reverse_nil, List.nil_append,
          List.singleton_append, ih, hr]

/-- Claim C4, counterexample: the implemented filename neither collapses
runs of non-alphanumeric characters (`a!!b` gives `a--b-...`, not
`a-b-...`) nor falls back to the default name when the transformed result
is empty (`!!!` gives an empty base, not `design`). -/
theorem downloadFilename_counterexample :
    downloadFilename "a!!b" "Z" ≠ specFilename "a!!b" "Z" ∧
      downloadFilename "a!!b" "Z" = "a--b-Z.svg" ∧
      specFilename "a!!b" "Z" = "a-b-Z.svg" ∧
      downloadFilename "!!!" "Z" ≠ specFilename "!!!" "Z" ∧
      downloadFilename "!!!" "Z" = "-Z.svg" ∧
      specFilename "!!!" "Z" = "design-Z.svg" := by decide

/-- Claim C4 as amended: the download filename substitutes the default
name for an empty product reference up front, replaces every
non-alphanumeric character by one separator without collapsing runs, trims
separators at both ends (so an all-symbol reference yields an empty base),
lowercases, and appends the code and the `.svg` extension. -/
theorem downloadFilename_amended (product_id code : String) :
    downloadFilename product_id code = specFilenameAmended product_id code := by
  have hbase : (if strTruthy product_id then product_id else "design") =
      (if product_id = "" then "design" else product_id) := by
    by_cases hp : product_id = ""
    · simp [hp, strTruthy]
    · rw [if_pos ((strTruthy_iff product_id).mpr hp), if_neg hp]
  unfold downloadFilename specFilenameAmended safe_name
  rw [hbase, dropTrail_eq]

/-- Characters that could break out of HTML markup or attribute context. -/
def dangerousChar (c : Char) : Bool :=
  c == '<' || c == '>' || c == '&' || c == '\x27' || c == '\x22'

/-- Every character produced by the standard base64 encoder is either the
padding `=` or a character of the standard alphabet. -/
theorem b64encode_mem (bs : List Nat) (c : Char) (hc : c ∈ b64encode bs) :
    c = '=' ∨ ∃ s, c = b64stdChar s := by
  induction bs using b64encode.induct with
  | case1 => simp [b64encode] at hc
  | case2 b0 =>
      simp only [b64encode, List.mem_cons, List.not_mem_nil, or_false] at hc
      rcases hc with rfl | rfl | rfl | rfl
      · exact Or.inr ⟨_, rfl⟩
      · exact Or.inr ⟨_, rfl⟩
      · exact Or.inl rfl
      · exact Or.inl rfl
  | case3 b0 b1 =>
      simp only [b64encode, List.mem_cons, List.not_mem_nil, or_false] at hc
      rcases hc with rfl | rfl | rfl | rfl
      · exact Or.inr ⟨_, rfl⟩
      · exact Or.inr ⟨_, rfl⟩
      · exact Or.inr ⟨_, rfl⟩
      · exact Or.inl rfl
  | case4 b0 b1 b2 rest ih =>
      simp only [b64encode, List.mem_cons] at hc
      rcases hc with rfl | rfl | rfl | rfl | hm
      · exact Or.inr ⟨_, rfl⟩
      · exact Or.inr ⟨_, rfl⟩
      · exact Or.inr ⟨_, rfl⟩
      · exact Or.inr ⟨_, rfl⟩
      · exact ih hm

/-- No character of the standard alphabet is HTML-dangerous. -/
theorem b64stdChar_not_dangerous (s : Nat) :
    dangerousChar (b64stdChar s) = false := by
  by_cases h : s < 64
  · exact (by decide :
      ∀ t : Nat, t < 64 → dangerousChar (b64stdChar t) = false) s h
  · have hd : b64stdChar s = 'A' := by
      unfold b64stdChar
      apply List.getD_eq_default
      have hlen : b64stdAlphabet.length = 64 := rfl
      omega
    rw [hd]
    rfl

/-- The SVG data URI contains no markup- or attribute-breaking character,
whatever bytes the stored document has. -/
theorem svgDataUrl_safe (bs : List Nat) :
    (svgDataUrl bs).data.all (fun c => !(dangerousChar c)) = true := by
  unfold svgDataUrl
  rw [String.data_append, List.all_append]
  have hpre : ("data:image/svg+xml;base64," : String).data.all
      (fun c => !(dangerousChar c)) = true := by decide
  rw [hpre]
  rw [Bool.true_and]
  rw [List.all_eq_true]
  intro c hc
  rcases b64encode_mem bs c hc with rfl | ⟨s, rfl⟩
  · rfl
  · rw [b64stdChar_not_dangerous]
    rfl

/-- A stored design whose product reference contains raw markup. -/
def dEx : DesignRec :=
  { code := "c1", product_id := "<b>", svg := "<svg/>",
    state_json := Option.none, created_at := "2024-01-01 00:00:00" }

/-- The page rendered for `dEx`. -/
def cxHtml : String :=
  renderHtml "c1" "<b>" "2024-01-01 00:00:00" (utf8Encode "<svg/>")

/-- Claim C3, counterexample: the product reference is interpolated into
the page unescaped — for the stored reference `<b>` the document contains
the raw text `Product: <b>` and no `&lt;` entity anywhere. -/
theorem product_ref_unescaped :
    view_design cfgW Option.none [dEx] "c1" =
      { status := 200, body := RespBody.html cxHtml, headers := [] } ∧
      occursIn ("Product: <b>").data cxHtml.data = true ∧
      occursIn ("&lt;").data cxHtml.data = false := by
  refine ⟨rfl, ?_, ?_⟩ <;> decide

/-- Claim C3 as amended: the rendered page embeds the product reference
verbatim (no HTML escaping), while the SVG document itself enters the page
only through the base64 data URI, none of whose characters can open or
close markup or break out of the quoted attributes (`<`, `>`, `&` and both
quote characters never arise from the stored SVG bytes). -/
theorem render_product_verbatim_svg_safe (code product_id created_at :
    String) (svgBytes : List Nat) :
    (∃ pre post,
      renderHtml code product_id created_at svgBytes =
        pre ++ (product_id ++ post)) ∧
      (svgDataUrl svgBytes).data.all (fun c => !(dangerousChar c)) = true := by
  constructor
  · refine ⟨tplA ++ code ++ tplB ++ code ++ tplC,
      tplD ++ created_at ++ tplE ++ svgDataUrl svgBytes ++ tplF ++
        svgDataUrl svgBytes ++ tplG ++ downloadFilename product_id code ++
        tplH, ?_⟩
    simp only [renderHtml, String.append_assoc]
  · exact svgDataUrl_safe svgBytes

/-- Decoding inverts the alphabet on 6-bit values. -/
theorem b64stdVal_b64stdChar :
    ∀ s : Nat, s < 64 → b64stdVal (b64stdChar s) = s := by decide

/-- Alphabet characters are never the padding character. -/
theorem b64stdChar_ne_pad : ∀ s : Nat, s < 64 → b64stdChar s ≠ '=' := by
  decide

/-- Decoding four leading characters whose fourth is not padding
takes the general three-byte branch. -/
theorem b64decode_cons (c1 c2 c3 c4 : Char) (rest : List Char)
    (h4 : c4 ≠ '=') :
    b64decode (c1 :: c2 :: c3 :: c4 :: rest) =
      (b64stdVal c1 * 4 + b64stdVal c2 / 16) ::
      (b64stdVal c2 % 16 * 16 + b64stdVal c3 / 4) ::
      (b64stdVal c3 % 4 * 64 + b64stdVal c4) ::
      b64decode rest := by
  have hb : (c4 == '=') = false := beq_false_of_ne h4
  rw [b64decode]
  rw [show (c3 == '=' && c4 == '=' && rest.isEmpty) = false by
    rw [hb]; simp]
  rw [show (c4 == '=' && rest.isEmpty) = false by rw [hb]; simp]
  rfl

/-- Decoding a two-character group closed by double padding. -/
theorem b64decode_pad2 (c1 c2 : Char) :
    b64decode [c1, c2, '=', '='] =
      [b64stdVal c1 * 4 + b64stdVal c2 / 16] := rfl

/-- Decoding a three-character group closed by single padding, when
the third character is not itself padding. -/
theorem b64decode_pad1 (c1 c2 c3 : Char) (h3 : c3 ≠ '=') :
    b64decode [c1, c2, c3, '='] =
      [b64stdVal c1 * 4 + b64stdVal c2 / 16,
       b64stdVal c2 % 16 * 16 + b64stdVal c3 / 4] := by
  have hb : (c3 == '=') = false := beq_false_of_ne h3
  rw [b64decode]
  rw [show (c3 == '=' && '=' == '=' && List.isEmpty []) = false by
    rw [hb]; rfl]
  rfl

/-- Base64 decoding inverts encoding on byte sequences. -/
theorem b64decode_b64encode :
    ∀ bs : List Nat, (∀ b ∈ bs, b < 256) → b64decode (b64encode bs) = bs
  | [], _ => rfl
  | [b0], h => by
      have h0 : b0 < 256 := h b0 (by simp)
      rw [show b64encode [b0] =
        [b64stdChar (b0 / 4), b64stdChar (b0 % 4 * 16), '=', '='] from rfl]
      rw [b64decode_pad2]
      rw [b64stdVal_b64stdChar (b0 / 4) (by omega)]
      rw [b64stdVal_b64stdChar (b0 % 4 * 16) (by omega)]
      congr 1
      omega
  | [b0, b1], h => by
      have h0 : b0 < 256 := h b0 (by simp)
      have h1 : b1 < 256 := h b1 (by simp)
      rw [show b64encode [b0, b1] =
        [b64stdChar (b0 / 4), b64stdChar (b0 % 4 * 16 + b1 / 16),
         b64stdChar (b1 % 16 * 4), '='] from rfl]
      rw [b64decode_pad1 _ _ _ (b64stdChar_ne_pad (b1 % 16 * 4) (by omega))]
      rw [b64stdVal_b64stdChar (b0 / 4) (by omega)]
      rw [b64stdVal_b64stdChar (b0 % 4 * 16 + b1 / 16) (by omega)]
      rw [b64stdVal_b64stdChar (b1 % 16 * 4) (by omega)]
      congr 1
      · omega
      · congr 1
        omega
  | b0 :: b1 :: b2 :: rest, h => by
      have h0 : b0 < 256 := h b0 (by simp)
      have h1 : b1 < 256 := h b1 (by simp)
      have h2 : b2 < 256 := h b2 (by simp)
      rw [show b64encode (b0 :: b1 :: b2 :: rest) =
        b64stdChar (b0 / 4) :: b64stdChar (b0 % 4 * 16 + b1 / 16) ::
        b64stdChar (b1 % 16 * 4 + b2 / 64) :: b64stdChar (b2 % 64) ::
        b64encode rest from rfl]
      rw [b64decode_cons _ _ _ _ _
        (b64stdChar_ne_pad (b2 % 64) (by omega))]
      rw [b64stdVal_b64stdChar (b0 / 4) (by omega)]
      rw [b64stdVal_b64stdChar (b0 % 4 * 16 + b1 / 16) (by omega)]
      rw [b64stdVal_b64stdChar (b1 % 16 * 4 + b2 / 64) (by omega)]
      rw [b64stdVal_b64stdChar (b2 % 64) (by omega)]
      rw [b64decode_b64encode rest (fun b hb => h b (by simp [hb]))]
      congr 1
      · omega
      · congr 1
        · omega
        · congr 1
          omega

/-- Code points are below `0x110000`. -/
theorem char_toNat_lt (c : Char) : c.toNat < 1114112 := by
  have h := c.valid
  unfold UInt32.isValidChar at h
  unfold Nat.isValidChar at h
  unfold Char.toNat
  omega

/-- Every UTF-8 byte of a code point is an actual byte. -/
theorem utf8EncodeChar_lt (c : Char) :
    ∀ b ∈ utf8EncodeChar c.toNat, b < 256 := by
  have hv := char_toNat_lt c
  intro b hb
  unfold utf8EncodeChar at hb
  split at hb
  · simp at hb; omega
  · split at hb
    · simp at hb; rcases hb with rfl | rfl <;> omega
    · split at hb
      · simp at hb; rcases hb with rfl | rfl | rfl <;> omega
      · simp at hb; rcases hb with rfl | rfl | rfl | rfl <;> omega

/-- Every UTF-8 byte of a string is an actual byte. -/
theorem utf8Encode_lt (s : String) : ∀ b ∈ utf8Encode s, b < 256 := by
  intro b hb
  unfold utf8Encode at hb
  rw [List.mem_flatten] at hb
  obtain ⟨l, hl, hbl⟩ := hb
  rw [List.mem_map] at hl
  obtain ⟨c, _, rfl⟩ := hl
  exact utf8EncodeChar_lt c b hbl

/-- The expression `(data.get('productId') or '').strip()` on a string value is the
stripped string, since the falsy case is the empty string itself. -/
theorem stripAttr_pyOr_str (pid : String) :
    pyStripAttr (pyOr (PyVal.str pid) (PyVal.str "")) =
      Except.ok (pyStrip pid) := by
  unfold pyOr
  rcases hb : pyTruthy (PyVal.str pid)
  · have hs : pid = "" := by
      by_contra hne
      have hb' : strTruthy pid = false := hb
      rw [(strTruthy_iff pid).mpr hne] at hb'
      exact absurd hb' (by decide)
    subst hs
    simp [hb, pyStripAttr]
  · simp [hb, pyStripAttr]

/-- The expression `data.get('svg') or ''` on a string value is that same string value. -/
theorem pyOr_str_empty (s : String) :
    pyOr (PyVal.str s) (PyVal.str "") = PyVal.str s := by
  unfold pyOr
  rcases hb : pyTruthy (PyVal.str s)
  · have hs : s = "" := by
      by_contra hne
      have hb' : strTruthy s = false := hb
      rw [(strTruthy_iff s).mpr hne] at hb'
      exact absurd hb' (by decide)
    subst hs
    simp [hb]
  · simp [hb]

/-- Looking up a freshly inserted code finds the new record: no earlier
record carries it. -/
theorem find_append_fresh (store : List DesignRec) (d : DesignRec)
    (hc : codeTaken store d.code = false) :
    (store ++ [d]).find? (fun e => e.code == d.code) = some d := by
  induction store with
  | nil => simp [List.find?]
  | cons e es ih =>
      unfold codeTaken at hc
      rw [List.any_cons] at hc
      have h1 : (e.code == d.code) = false := by
        rcases hb : (e.code == d.code)
        · rfl
        · rw [hb] at hc; simp at hc
      have h2 : codeTaken es d.code = false := by
        unfold codeTaken
        rcases hb : es.any (fun x => x.code == d.code)
        · rfl
        · rw [hb] at hc; simp at hc
      rw [List.cons_append, List.find?_cons, h1]
      exact ih h2

/-- Presenting exactly the configured credentials always passes the gate
(which is skipped entirely when either credential is unconfigured). -/
theorem view_design_self_auth (cfg : Config) (store : List DesignRec)
    (code : String) :
    view_design cfg (some (cfg.adminUser, cfg.adminPass)) store code =
      view_lookup store code := by
  unfold view_design require_basic_auth
  rcases hb : (strTruthy cfg.adminUser && strTruthy cfg.adminPass)
  · simp [hb]
  · simp [hb]

/-- Claim C7 as amended: whenever a submission carrying a string
`productId` and a string `svg` is answered 200, the returned code resolves
through the retrieval endpoint (with the configured credentials, or freely
when none are configured) to the page rendered from the *trimmed* product
reference and the submitted SVG, whose data URI base64-decodes exactly to
the SVG's UTF-8 bytes. -/
theorem submit_view_roundtrip (cfg : Config) (gen : Nat → String)
    (now : String) (origin : Option String) (pid svgText : String)
    (state : Option PyVal) (store : List DesignRec)
    (resp : HttpResponse) (store' : List DesignRec)
    (h : save_design cfg gen now
      { method := "POST", origin := origin,
        productId := some (PyVal.str pid),
        svg := some (PyVal.str svgText), state := state } store =
        Except.ok (resp, store'))
    (h200 : resp.status = 200) :
    ∃ c, resp.body = RespBody.jsonCode c ∧
      view_design cfg (some (cfg.adminUser, cfg.adminPass)) store' c =
        { status := 200,
          body := RespBody.html
            (renderHtml c (pyStrip pid) now (utf8Encode svgText)),
          headers := [] } ∧
      b64decode (b64encode (utf8Encode svgText)) = utf8Encode svgText := by
  simp only [save_design, Option.getD_some, pyOr_str_empty, pyStripAttr,
    pyLen] at h
  repeat' split at h
  all_goals try exact Except.noConfusion h
  all_goals simp only [Except.ok.injEq, Prod.mk.injEq] at h
  all_goals obtain ⟨h1, h2⟩ := h
  all_goals subst h1
  all_goals subst h2
  · rw [cors_ok_status] at h200; simp at h200
  · simp at h200
  · rw [cors_ok_status] at h200; simp at h200
  · rw [cors_ok_status] at h200; simp at h200
  · rename_i hins
    refine ⟨(pickCode (codeTaken store) gen).1, ?_, ?_, ?_⟩
    · rw [cors_ok_body]
    · rw [view_design_self_auth]
      unfold view_lookup
      have hfind : (store ++
          [({ code := (pickCode (codeTaken store) gen).1,
              product_id := pyStrip pid, svg := svgText,
              state_json := stateJson state, created_at := now } :
            DesignRec)]).find?
          (fun d => d.code == (pickCode (codeTaken store) gen).1) =
          some { code := (pickCode (codeTaken store) gen).1,
                 product_id := pyStrip pid, svg := svgText,
                 state_json := stateJson state, created_at := now } :=
        find_append_fresh store
          { code := (pickCode (codeTaken store) gen).1,
            product_id := pyStrip pid, svg := svgText,
            state_json := stateJson state, created_at := now }
          (by rw [Bool.not_eq_true] at hins; exact hins)
      rw [hfind]
    · exact b64decode_b64encode _ (utf8Encode_lt svgText)

/-- Witness for the amended claim C7 at a concrete whitespace-padded
submission. -/
theorem submit_view_roundtrip_witness :
    ∃ c, ({ status := 200, body := RespBody.jsonCode "K",
            headers := corsHdrs } : HttpResponse).body =
        RespBody.jsonCode c ∧
      view_design cfgW (some (cfgW.adminUser, cfgW.adminPass))
          [{ code := "K", product_id := "a", svg := "<svg/>",
             state_json := Option.none, created_at := "TS" }] c =
        { status := 200,
          body := RespBody.html
            (renderHtml c (pyStrip " a ") "TS" (utf8Encode "<svg/>")),
          headers := [] } ∧
      b64decode (b64encode (utf8Encode "<svg/>")) = utf8Encode "<svg/>" :=
  submit_view_roundtrip cfgW genK "TS" Option.none " a " "<svg/>"
    Option.none []
    { status := 200, body := RespBody.jsonCode "K", headers := corsHdrs }
    [{ code := "K", product_id := "a", svg := "<svg/>",
       state_json := Option.none, created_at := "TS" }] rfl rfl

/-- Claim C7, counterexample: submitting `productId = " a "` (surrounding
whitespace) succeeds, but the stored and rendered product reference is the
trimmed `"a"`, so retrieval does not display the submitted value. -/
theorem submit_view_roundtrip_counterexample :
    save_design cfgW genK "TS"
      { method := "POST", origin := Option.none,
        productId := some (PyVal.str " a "),
        svg := some (PyVal.str "<svg/>"), state := Option.none } [] =
      Except.ok ({ status := 200, body := RespBody.jsonCode "K",
                   headers := corsHdrs },
        [{ code := "K", product_id := "a", svg := "<svg/>",
           state_json := Option.none, created_at := "TS" }]) ∧
    view_design cfgW Option.none
        [{ code := "K", product_id := "a", svg := "<svg/>",
           state_json := Option.none, created_at := "TS" }] "K" =
      { status := 200,
        body := RespBody.html (renderHtml "K" "a" "TS" (utf8Encode "<svg/>")),
        headers := [] } ∧
    ("a" : String) ≠ " a " :=
  ⟨rfl, rfl, by decide⟩
